import Mathlib

/-
  Verification of the streaming-translation core of opencode-claude-max-proxy.

  Shallow embedding of `src/proxy/server.ts` (the `handleMessages` handler of
  `createProxyServer`): the prompt compiler, the session-header resolution,
  the SSE event translator loop, the error classifiers of the streaming and
  top-level catch paths, the client-disconnect cleanup handler, and the
  lifecycle timer pair.  Every definition is translated from the source file;
  definitions whose doc comment says so restate a claim's or the spec's words
  for comparison.
-/

/-- Character-list version of "xs starts with pat" (helper for JS
`String.prototype.includes`). -/
def charsLeadWith : List Char → List Char → Bool
  | [], _ => true
  | _ :: _, [] => false
  | a :: as, b :: bs => a == b && charsLeadWith as bs

/-- Character-list substring test: `pat` occurs contiguously in the list. -/
def charsContain (pat : List Char) : List Char → Bool
  | [] => charsLeadWith pat []
  | b :: bs => charsLeadWith pat (b :: bs) || charsContain pat bs

/-- JS `s.includes(pat)` on strings. -/
def strContains (s pat : String) : Bool :=
  charsContain pat.data s.data

/-- JS truthiness of an optional string value: `undefined` and `""` are falsy. -/
def jsTruthy : Option String → Bool
  | none => false
  | some s => !(s == "")

/-- JS `a || b` on an optional string `a` with default `b`
(empty string falls through, as in the source's header expressions). -/
def jsOrString (a : Option String) (b : String) : String :=
  match a with
  | some s => if s == "" then b else s
  | none => b

/-! ### Error classification (server.ts lines 454-469 and 553-573) -/

/-- The fixed remediation message of the authentication branch
(server.ts line 559). -/
def authRemediationMessage : String :=
  "Claude Code authentication failed. Please run 'claude login' and try again."

/-- The fixed explanation message of the SDK-abort branch (server.ts line 562). -/
def sdkAbortMessage : String :=
  "Claude SDK process exited unexpectedly. This may be due to resource constraints, network issues, or an internal SDK error. Check the proxy logs for details."

/-- `isSdkAbort` (server.ts lines 457-458). -/
def isSdkAbortMsg (errMsg : String) : Bool :=
  strContains errMsg "Claude Code process aborted" ||
  strContains errMsg "process aborted by user"

/-- `isConnectionReset` (server.ts lines 461-465); the error's runtime `name`
field is the first argument. -/
def isConnectionResetErr (errName errMsg : String) : Bool :=
  !isSdkAbortMsg errMsg &&
    (strContains errMsg "reset" || strContains errMsg "ECONNRESET" ||
     errName == "AbortError")

/-- `isExitCode1` (server.ts lines 468-469). -/
def isExitCode1Msg (errMsg : String) : Bool :=
  strContains errMsg "exited with code 1" || strContains errMsg "exit code 1"

/-- The streaming-path error classifier (server.ts lines 553-565):
given the runtime error name and message, the `(type, message)` pair put into
the `error` SSE frame. -/
def classifyStreamError (errName errMsg : String) : String × String :=
  if isExitCode1Msg errMsg then ("authentication_error", authRemediationMessage)
  else if isSdkAbortMsg errMsg then ("api_error", sdkAbortMessage)
  else if isConnectionResetErr errName errMsg then ("connection_error", errMsg)
  else ("api_error", errMsg)

/-- Modelled from the claim's words (C5): the same classifier but with the
abort predicate testing containment of "process aborted" or "aborted by user",
as the claim states the rules.  For comparison with `classifyStreamError`. -/
def claimClassifierC5 (errName errMsg : String) : String × String :=
  if strContains errMsg "exited with code 1" || strContains errMsg "exit code 1" then
    ("authentication_error", authRemediationMessage)
  else if strContains errMsg "process aborted" || strContains errMsg "aborted by user" then
    ("api_error", sdkAbortMessage)
  else if strContains errMsg "reset" || strContains errMsg "ECONNRESET" ||
          errName == "AbortError" then
    ("connection_error", errMsg)
  else ("api_error", errMsg)

/-- The amended first-match-wins chain (C5 amended): identical to the claim's
chain except that the abort substrings are the ones the source tests,
"Claude Code process aborted" and "process aborted by user". -/
def classifyStreamErrorChain (errName errMsg : String) : String × String :=
  if isExitCode1Msg errMsg then
    ("authentication_error", authRemediationMessage)
  else if isSdkAbortMsg errMsg then
    ("api_error", sdkAbortMessage)
  else if strContains errMsg "reset" || strContains errMsg "ECONNRESET" ||
          errName == "AbortError" then
    ("connection_error", errMsg)
  else ("api_error", errMsg)

/-- The JSON error response built by the handler's top-level catch
(server.ts lines 596-619): error type, body message, HTTP status, and the
extra headers passed to `c.json` (none are). -/
structure JsonErrorResponse where
  errType : String
  message : String
  status : Nat
  extraHeaders : List (String × String)
deriving DecidableEq, Repr

/-- The top-level catch of `handleMessages` (server.ts lines 596-619): the
only classification applied is the exit-code-1 test. -/
def handleTopLevelError (errMsg : String) : JsonErrorResponse :=
  { errType := if isExitCode1Msg errMsg then "authentication_error" else "api_error"
  , message := if isExitCode1Msg errMsg then authRemediationMessage else errMsg
  , status := if isExitCode1Msg errMsg then 401 else 500
  , extraHeaders := [] }

/-! ### Session header resolution (server.ts lines 176, 593, 611-619) -/

/-- The streaming response's `X-Claude-Session-ID` header expression
(server.ts line 593): `currentSessionId || resumeSessionId || session_<now>`. -/
def streamingResponseSessionHeader (cur resume : Option String) (nowMs : Nat) : String :=
  jsOrString cur (jsOrString resume ("session_" ++ toString nowMs))

/-- The non-streaming success response's `X-Claude-Session-ID` header
expression (server.ts line 176): `currentSessionId || session_<now>` — the
inbound resume identifier is not consulted. -/
def nonStreamingResponseSessionHeader (cur : Option String) (nowMs : Nat) : String :=
  jsOrString cur ("session_" ++ toString nowMs)

/-- Modelled from the claim's words (C1): the claimed resolution chain —
engine-reported identifier if any, else the inbound header if present, else a
synthesized `session_<unix-millis>` identifier. -/
def claimedSessionHeader (cur resume : Option String) (nowMs : Nat) : String :=
  match cur with
  | some s => s
  | none =>
    match resume with
    | some r => r
    | none => "session_" ++ toString nowMs

/-! ### The engine's event union and the SSE frame model
(server.ts lines 281-409; the data model of spec §3) -/

/-- A content block of an assistant turn (`message.message.content` entries):
a `type` discriminator and, for text blocks, an optional `text` field. -/
structure Block where
  type : String
  text : Option String
deriving DecidableEq, Repr

/-- The nested event wrapped by a `stream_event` message
(server.ts lines 346-375): the fields the translator reads. -/
inductive NestedEvent where
  | contentBlockStart (index : Nat) (blockType : Option String)
  | contentBlockDelta (index : Nat) (deltaType : Option String) (deltaText : Option String)
  | contentBlockStop (index : Nat)
  | otherEvent
deriving DecidableEq, Repr

/-- The engine's message union as the translator loop discriminates it
(server.ts lines 281-409): `assistant` (with its `session_id` and content
blocks), `user`, `result`, `stream_event`, and anything else. -/
inductive AgentMessage where
  | assistant (sessionId : Option String) (content : List Block)
  | userMsg (hasToolUseResult : Bool)
  | resultMsg
  | streamEvent (e : NestedEvent)
  | otherMsg
deriving DecidableEq, Repr

/-- An SSE frame written to the output stream (the `event:`/`data:` pairs the
handler enqueues; the keep-alive `: ping` comment carries no event name and is
not a frame). -/
inductive Frame where
  | messageStart
  | contentBlockStart (index : Nat)
  | contentBlockDelta (index : Nat) (text : Option String)
  | contentBlockStop (index : Nat)
  | messageDelta (stopReason : String)
  | messageStop
  | errorFrame (errType : String) (message : String)
deriving DecidableEq, Repr

/-- The forwarding guard of a nested `content_block_start`
(server.ts line 352): `event.content_block?.type === "text" ||
!event.content_block?.type` — an absent or empty type is falsy. -/
def forwardStart : Option String → Bool
  | none => true
  | some t => t == "text" || t == ""

/-- Frames forwarded for one nested stream event (server.ts lines 350-375). -/
def streamEventFrames : NestedEvent → List Frame
  | .contentBlockStart i bt =>
      if forwardStart bt then [.contentBlockStart i] else []
  | .contentBlockDelta i dt txt =>
      if dt == some "text_delta" then [.contentBlockDelta i txt] else []
  | .contentBlockStop i => [.contentBlockStop i]
  | .otherEvent => []

/-- The synthesized start/delta/stop triads of the assistant fallback loop
(server.ts lines 384-407), one per text block, indexed by position among the
text blocks. -/
def fallbackTriads : Nat → List Block → List Frame
  | _, [] => []
  | i, b :: rest =>
      Frame.contentBlockStart i :: Frame.contentBlockDelta i b.text ::
        Frame.contentBlockStop i :: fallbackTriads (i + 1) rest

/-- Frames synthesized from a full `assistant` event on the fallback path
(server.ts lines 379-408): the content is filtered to `"text"` blocks first. -/
def assistantFallbackFrames (content : List Block) : List Frame :=
  fallbackTriads 0 (content.filter (fun b => b.type == "text"))

/-- Frames emitted for one engine message given the current `hasStreamEvents`
flag (server.ts lines 344-408): stream events are always translated; full
assistant turns are translated only while `hasStreamEvents` is false; user,
result and other messages emit nothing. -/
def messageFrames (hasStreamEvents : Bool) : AgentMessage → List Frame
  | .streamEvent e => streamEventFrames e
  | .assistant _ content =>
      if hasStreamEvents then [] else assistantFallbackFrames content
  | _ => []

/-- Whether a message is a `stream_event` (sets `hasStreamEvents`,
server.ts line 345). -/
def isStreamEvent : AgentMessage → Bool
  | .streamEvent _ => true
  | _ => false

/-- The translator loop (server.ts lines 281-409) threaded on the
`hasStreamEvents` flag: the flag starts false and is set by the first
`stream_event`; session capture and turn counting do not affect frames. -/
def loopFrames (hasStreamEvents : Bool) : List AgentMessage → List Frame
  | [] => []
  | m :: rest =>
      messageFrames hasStreamEvents m ++
        loopFrames (hasStreamEvents || isStreamEvent m) rest

/-- All frames the loop emits for a consumed message sequence, from the
initial `hasStreamEvents = false` state (server.ts line 205). -/
def emittedContentFrames (msgs : List AgentMessage) : List Frame :=
  loopFrames false msgs

/-- How a streamed request's event consumption ended: the engine stream was
exhausted, or iteration raised a failure with a runtime name and message. -/
inductive StreamOutcome where
  | finished
  | failed (errName : String) (errMsg : String)
deriving DecidableEq, Repr

/-- The frames written after the loop (server.ts lines 426-441 on success,
442-575 on failure): the closing triad on natural completion; on failure,
nothing when the client had disconnected (lines 448-452), else one classified
`error` frame (lines 553-573). -/
def closingFrames (outcome : StreamOutcome) (clientDisconnected : Bool) : List Frame :=
  match outcome with
  | .finished =>
      [Frame.contentBlockStop 0, Frame.messageDelta "end_turn", Frame.messageStop]
  | .failed n m =>
      if clientDisconnected then []
      else [Frame.errorFrame (classifyStreamError n m).1 (classifyStreamError n m).2]

/-- The full SSE frame sequence of a streamed request (server.ts lines
227-575): the preamble `message_start` and `content_block_start(0)` (lines
228-245), then the per-message frames for the consumed messages, then the
closing frames of the outcome. -/
def streamRun (msgs : List AgentMessage) (outcome : StreamOutcome)
    (clientDisconnected : Bool) : List Frame :=
  Frame.messageStart :: Frame.contentBlockStart 0 ::
    (emittedContentFrames msgs ++ closingFrames outcome clientDisconnected)

/-- Whether a frame is an `error` frame. -/
def isErrorFrame : Frame → Bool
  | .errorFrame _ _ => true
  | _ => false

/-- Whether a frame is one of the three content-block frame kinds (the only
kinds the loop body can emit). -/
def isContentFrame : Frame → Bool
  | .contentBlockStart _ => true
  | .contentBlockDelta _ _ => true
  | .contentBlockStop _ => true
  | _ => false

/-- The last `k` frames of a sequence. -/
def lastFrames (k : Nat) (frames : List Frame) : List Frame :=
  frames.drop (frames.length - k)

/-- Bool rendition of claim C2 as stated: the sequence starts with
`message_start` then `content_block_start(0)`, and ends with the closing
triad `content_block_stop / message_delta("end_turn") / message_stop`, or
ends with an `error` frame instead. -/
def c2ClaimHolds (frames : List Frame) : Bool :=
  decide (frames.take 2 = [Frame.messageStart, Frame.contentBlockStart 0]) &&
  (decide (lastFrames 3 frames =
      [Frame.contentBlockStop 0, Frame.messageDelta "end_turn", Frame.messageStop]) ||
   (match frames.getLast? with
    | some (Frame.errorFrame _ _) => true
    | _ => false))

/-! ### Session identifier capture
(streaming: server.ts lines 297-309; non-streaming: lines 145-162) -/

/-- One step of the streaming path's session capture (server.ts lines
300-309): `if (message.session_id) { if (!currentSessionId)
{ currentSessionId = message.session_id } }` — first truthy value wins. -/
def streamSessionStep (cur : Option String) : AgentMessage → Option String
  | .assistant sid _ =>
      if jsTruthy sid then (if jsTruthy cur then cur else sid) else cur
  | _ => cur

/-- The session identifier the streaming loop ends with. -/
def streamCapturedSession (msgs : List AgentMessage) : Option String :=
  msgs.foldl streamSessionStep none

/-- JS string coercion of a text field appended by `+=`
(server.ts line 158): an absent field appends the text "undefined". -/
def blockTextJs : Option String → String
  | some s => s
  | none => "undefined"

/-- One step of the non-streaming loop (server.ts lines 145-162): the session
identifier is overwritten by every truthy `session_id` (no first-wins guard),
and every `"text"` block's text is appended to the buffer. -/
def nonStreamingStep (acc : Option String × String) : AgentMessage → Option String × String
  | .assistant sid content =>
      ((if jsTruthy sid then sid else acc.1),
       acc.2 ++ String.join
         ((content.filter (fun b => b.type == "text")).map (fun b => blockTextJs b.text)))
  | _ => acc

/-- The non-streaming loop's final `(currentSessionId, fullContent)` pair. -/
def nonStreamingFold (msgs : List AgentMessage) : Option String × String :=
  msgs.foldl nonStreamingStep (none, "")

/-- Modelled from the claim's words (C8): the session identifier reported by
the first engine event that bears a truthy one. -/
def firstTruthySessionId : List AgentMessage → Option String
  | [] => none
  | .assistant sid _ :: rest =>
      if jsTruthy sid then sid else firstTruthySessionId rest
  | _ :: rest => firstTruthySessionId rest

/-- The session identifier reported by the last engine event that bears a
truthy one (the C8 amendment's description of the non-streaming path). -/
def lastTruthySessionId : List AgentMessage → Option String
  | [] => none
  | .assistant sid _ :: rest =>
      (match lastTruthySessionId rest with
       | some s => some s
       | none => if jsTruthy sid then sid else none)
  | _ :: rest => lastTruthySessionId rest

/-! ### Client-disconnect cleanup (server.ts lines 577-585) -/

/-- The per-request cleanup flags the `cancel()` handler touches: whether each
timer has been cleared, whether `abortController.abort` has been invoked, and
the `clientDisconnected` flag. -/
structure CleanupState where
  timeoutCleared : Bool
  inactivityCleared : Bool
  engineAborted : Bool
  clientDisconnected : Bool
deriving DecidableEq, Repr

/-- The `cancel()` handler run on client disconnect (server.ts lines
577-585): sets `clientDisconnected`, clears both timers, and deliberately
does not abort the SDK call. -/
def cancelHandler (s : CleanupState) : CleanupState :=
  { s with clientDisconnected := true, timeoutCleared := true, inactivityCleared := true }

/-! ### Lifecycle timers
(non-streaming: server.ts lines 119-164; streaming: lines 195-224, 289) -/

/-- Whether the total-duration `setTimeout` fires: armed once at start and
cleared when the request finishes, so it fires exactly when the finish time
exceeds the deadline. -/
def totalTimerFired (timeoutMs endTime : Nat) : Bool :=
  decide (timeoutMs < endTime)

/-- The non-streaming path (server.ts lines 119-164) arms a single
`setTimeout(.., timeoutMs)` and its event loop never arms or resets an
inactivity timer, so cancellation depends only on the finish time, not on the
event arrival times. -/
def nonStreamingAborted (timeoutMs : Nat) (eventTimes : List Nat) (endTime : Nat) : Bool :=
  totalTimerFired timeoutMs endTime

/-- The gaps the streaming inactivity timer measures: the timer is armed
after the preamble (time 0, server.ts line 247) and reset at each event
arrival (line 289), so the observed gaps are event-to-event differences plus
the final gap up to the finish time. -/
def gapsBetween : Nat → List Nat → Nat → List Nat
  | prev, [], endTime => [endTime - prev]
  | prev, t :: rest, endTime => (t - prev) :: gapsBetween t rest endTime

/-- Whether the streaming inactivity timer fires: some observed gap exceeds
the inactivity deadline (server.ts lines 218-225). -/
def inactivityTimerFired (inactivityMs : Nat) (eventTimes : List Nat) (endTime : Nat) : Bool :=
  (gapsBetween 0 eventTimes endTime).any (fun g => decide (inactivityMs < g))

/-- The streaming path aborts when either the total timer (line 211) or the
inactivity timer (line 220) fires. -/
def streamingAborted (timeoutMs inactivityMs : Nat) (eventTimes : List Nat)
    (endTime : Nat) : Bool :=
  totalTimerFired timeoutMs endTime ||
    inactivityTimerFired inactivityMs eventTimes endTime

/-! ### Prompt compiler (server.ts lines 101-117) -/

/-- The shapes `m.content` can take as the compiler discriminates them
(server.ts lines 105-114): a string, an array of blocks, or anything else
(carried here already stringified, as `String(m.content)` renders it). -/
inductive MsgContent where
  | str (s : String)
  | blocks (bs : List Block)
  | otherVal (stringified : String)
deriving DecidableEq, Repr

/-- An inbound API message: a role and a content value. -/
structure ApiMessage where
  role : String
  content : MsgContent
deriving DecidableEq, Repr

/-- Content resolution (server.ts lines 104-114): strings verbatim; block
arrays filtered to blocks with `type === "text"` and truthy `text`, their
texts concatenated with no separator; other shapes stringified. -/
def resolveContent : MsgContent → String
  | .str s => s
  | .blocks bs =>
      String.join
        ((bs.filter (fun b => b.type == "text" && jsTruthy b.text)).map
          (fun b => blockTextJs b.text))
  | .otherVal s => s

/-- One labeled segment (server.ts lines 103 and 115):
`` `${role}: ${content}` `` with role `"Assistant"` for assistant messages and
`"Human"` otherwise. -/
def promptLine (m : ApiMessage) : String :=
  (if m.role == "assistant" then "Assistant" else "Human") ++ ": " ++
    resolveContent m.content

/-- JS `Array.prototype.join(sep)`: elements concatenated with the separator
between consecutive elements (`sep` appears `length - 1` times). -/
def joinWith (sep : String) : List String → String
  | [] => ""
  | [x] => x
  | x :: y :: rest => x ++ sep ++ joinWith sep (y :: rest)

/-- The prompt compiler (server.ts lines 101-117):
`body.messages?.map(..).join("\n\n") || ""`.  An absent list yields `""`; the
`|| ""` only replaces an empty join result with itself, so the joined string
is returned as-is. -/
def compilePrompt : Option (List ApiMessage) → String
  | none => ""
  | some ms => joinWith "\n\n" (ms.map promptLine)

/-- Modelled from the claim's words (C9): join a list of labeled segments
with exactly one blank-line separator between consecutive segments. -/
def joinBlankLines : List String → String
  | [] => ""
  | [x] => x
  | x :: y :: rest => x ++ "\n\n" ++ joinBlankLines (y :: rest)

/-- A two-turn engine run whose events report the session identifiers
"a" then "b" (concrete input for C8). -/
def c8Demo : List AgentMessage :=
  [AgentMessage.assistant (some "a") [], AgentMessage.assistant (some "b") []]

/-! ## Helper lemmas -/

theorem streamEventFrames_content : ∀ (e : NestedEvent) (f : Frame),
    f ∈ streamEventFrames e → isContentFrame f = true := by
  intro e f h
  cases e with
  | contentBlockStart i bt =>
    cases hfb : forwardStart bt
    · simp [streamEventFrames, hfb] at h
    · simp [streamEventFrames, hfb] at h
      subst h; rfl
  | contentBlockDelta i dt txt =>
    cases hdt : (dt == some "text_delta")
    · simp [streamEventFrames, hdt] at h
    · simp [streamEventFrames, hdt] at h
      subst h; rfl
  | contentBlockStop i =>
    simp [streamEventFrames] at h
    subst h; rfl
  | otherEvent => simp [streamEventFrames] at h

theorem fallbackTriads_content : ∀ (bs : List Block) (i : Nat) (f : Frame),
    f ∈ fallbackTriads i bs → isContentFrame f = true := by
  intro bs
  induction bs with
  | nil => intro i f h; simp [fallbackTriads] at h
  | cons b rest ih =>
    intro i f h
    simp [fallbackTriads] at h
    rcases h with h | h | h | h
    · subst h; rfl
    · subst h; rfl
    · subst h; rfl
    · exact ih (i + 1) f h

theorem messageFrames_content : ∀ (hs : Bool) (m : AgentMessage) (f : Frame),
    f ∈ messageFrames hs m → isContentFrame f = true := by
  intro hs m f h
  cases m with
  | assistant sid c =>
    cases hs
    · simp [messageFrames, assistantFallbackFrames] at h
      exact fallbackTriads_content _ 0 f h
    · simp [messageFrames] at h
  | userMsg b => simp [messageFrames] at h
  | resultMsg => simp [messageFrames] at h
  | streamEvent e =>
    exact streamEventFrames_content e f (by simpa [messageFrames] using h)
  | otherMsg => simp [messageFrames] at h

theorem loopFrames_content : ∀ (msgs : List AgentMessage) (hs : Bool) (f : Frame),
    f ∈ loopFrames hs msgs → isContentFrame f = true := by
  intro msgs
  induction msgs with
  | nil => intro hs f h; simp [loopFrames] at h
  | cons m rest ih =>
    intro hs f h
    simp [loopFrames] at h
    rcases h with h | h
    · exact messageFrames_content hs m f h
    · exact ih _ f h

theorem loopFrames_append : ∀ (a b : List AgentMessage) (hs : Bool),
    loopFrames hs (a ++ b) =
      loopFrames hs a ++ loopFrames (hs || a.any isStreamEvent) b := by
  intro a
  induction a with
  | nil => intro b hs; simp [loopFrames]
  | cons m rest ih =>
    intro b hs
    simp [loopFrames, List.any_cons, ih, Bool.or_assoc]

/-! ## Claim theorems -/

/-- C3: a nested `content_block_start` whose block type is `"tool_use"`
forwards no frame, a tool-input delta (`input_json_delta`) forwards no frame,
and a nested `content_block_stop` always forwards a `content_block_stop`
frame with the event's index, regardless of the `hasStreamEvents` state. -/
theorem c3_tool_suppression : ∀ (hs : Bool) (i : Nat) (txt : Option String),
    messageFrames hs
        (AgentMessage.streamEvent (NestedEvent.contentBlockStart i (some "tool_use"))) = []
    ∧ messageFrames hs
        (AgentMessage.streamEvent
          (NestedEvent.contentBlockDelta i (some "input_json_delta") txt)) = []
    ∧ messageFrames hs
        (AgentMessage.streamEvent (NestedEvent.contentBlockStop i)) =
        [Frame.contentBlockStop i] := by
  intro hs i txt
  refine ⟨?_, ?_, rfl⟩
  · have h : forwardStart (some "tool_use") = false := by decide
    simp [messageFrames, streamEventFrames, h]
  · have h : ((some "input_json_delta" : Option String) == some "text_delta") = false := by decide
    simp [messageFrames, streamEventFrames, h]

/-- C5 counterexample: for a failure whose message is exactly
"aborted by user", the code's classifier returns the raw message as the
user-facing text, while the claim's rules (abort detection on the substrings
"process aborted" / "aborted by user") would return the fixed
resource/network explanation message. -/
theorem c5_counterexample :
    classifyStreamError "Error" "aborted by user" ≠
      claimClassifierC5 "Error" "aborted by user" := by decide

/-- C5 amended: the streaming error classification is first-match-wins in the
order exit-code-1, SDK abort, connection reset, generic — with the abort rule
matching the substrings "Claude Code process aborted" or
"process aborted by user" (not the looser "process aborted" / "aborted by
user" of the claim). -/
theorem c5_classifier_rules : ∀ (errName errMsg : String),
    classifyStreamError errName errMsg = classifyStreamErrorChain errName errMsg := by
  intro n m
  simp only [classifyStreamError, classifyStreamErrorChain, isConnectionResetErr]
  by_cases h2 : isSdkAbortMsg m = true
  · simp [h2]
  · rw [Bool.not_eq_true] at h2
    simp [h2]

/-- C6 counterexample: a non-streaming engine failure with message
"ECONNRESET" is returned as `api_error`, while the streaming classifier (which
the claim says also governs the non-streaming path) classifies the same
failure as `connection_error`. -/
theorem c6_counterexample :
    (handleTopLevelError "ECONNRESET").errType = "api_error"
    ∧ (classifyStreamError "Error" "ECONNRESET").1 = "connection_error"
    ∧ ("api_error" : String) ≠ "connection_error" := by decide

/-- C6 amended: the top-level catch serving the non-streaming path classifies
only the exit-code-1 case (authentication_error, 401, fixed message); every
other failure is `api_error`, 500, raw message, with no extra headers — it
agrees with the streaming classifier exactly on the authentication case. -/
theorem c6_nonstreaming_error_response : ∀ (errName errMsg : String),
    (handleTopLevelError errMsg).errType =
        (if isExitCode1Msg errMsg then "authentication_error" else "api_error")
    ∧ (handleTopLevelError errMsg).status =
        (if isExitCode1Msg errMsg then 401 else 500)
    ∧ (handleTopLevelError errMsg).message =
        (if isExitCode1Msg errMsg then authRemediationMessage else errMsg)
    ∧ (handleTopLevelError errMsg).extraHeaders = []
    ∧ ((handleTopLevelError errMsg).errType = "authentication_error" ↔
        (classifyStreamError errName errMsg).1 = "authentication_error") := by
  intro n m
  simp only [handleTopLevelError, classifyStreamError]
  by_cases h1 : isExitCode1Msg m = true
  · simp [h1]
  · rw [Bool.not_eq_true] at h1
    by_cases h2 : isSdkAbortMsg m = true
    · simp [h1, h2]
    · rw [Bool.not_eq_true] at h2
      by_cases h3 : isConnectionResetErr n m = true
      · simp [h1, h2, h3]
      · rw [Bool.not_eq_true] at h3
        simp [h1, h2, h3]

theorem compilePrompt_eq_joinBlankLines : ∀ ms : List ApiMessage,
    compilePrompt (some ms) = joinBlankLines (ms.map promptLine) := by
  intro ms
  induction ms with
  | nil => rfl
  | cons m tail ih =>
    cases tail with
    | nil => rfl
    | cons m2 rest =>
      simp only [compilePrompt, List.map_cons] at ih ⊢
      simp only [joinWith, joinBlankLines]
      rw [ih]

theorem promptLine_label : ∀ m : ApiMessage,
    promptLine m =
      (if m.role == "assistant" then "Assistant: " else "Human: ") ++
        resolveContent m.content := by
  intro m
  unfold promptLine
  by_cases h : (m.role == "assistant") = true
  · simp only [h, if_true]
    rw [show ("Assistant" ++ ": " : String) = "Assistant: " from rfl]
  · rw [Bool.not_eq_true] at h
    simp only [h, Bool.false_eq_true, if_false]
    rw [show ("Human" ++ ": " : String) = "Human: " from rfl]

/-- C9: the compiled prompt is the list of labeled segments joined with one
blank-line separator between consecutive segments (`len - 1` separators); an
absent or empty message list yields the empty string; each segment is
"Assistant: " for role "assistant" and "Human: " otherwise, followed by the
resolved content — string content verbatim, block arrays filtered to
non-empty text blocks and concatenated with no separator, other content
shapes stringified. -/
theorem c9_prompt_compiler :
    (∀ ms : List ApiMessage, compilePrompt (some ms) = joinBlankLines (ms.map promptLine))
    ∧ compilePrompt none = ""
    ∧ compilePrompt (some []) = ""
    ∧ (∀ m : ApiMessage,
        promptLine m =
          (if m.role == "assistant" then "Assistant: " else "Human: ") ++
            resolveContent m.content)
    ∧ (∀ s, resolveContent (MsgContent.str s) = s)
    ∧ (∀ bs : List Block,
        resolveContent (MsgContent.blocks bs) =
          String.join
            ((bs.filter (fun b => b.type == "text" && jsTruthy b.text)).map
              (fun b => blockTextJs b.text)))
    ∧ (∀ s, resolveContent (MsgContent.otherVal s) = s) :=
  ⟨compilePrompt_eq_joinBlankLines, rfl, rfl, promptLine_label,
   fun _ => rfl, fun _ => rfl, fun _ => rfl⟩

/-- C10: the non-streaming path has no inactivity timer — whenever the loop
finishes by the total deadline it is never aborted, whatever the gaps between
engine events were; while on the streaming path an inactivity gap can abort
the operation even though the total deadline has not elapsed. -/
theorem c10_nonstreaming_single_timer :
    (∀ (timeoutMs : Nat) (eventTimes : List Nat) (endTime : Nat),
       endTime ≤ timeoutMs → nonStreamingAborted timeoutMs eventTimes endTime = false)
    ∧ (∃ (timeoutMs inactivityMs endTime : Nat) (eventTimes : List Nat),
         endTime ≤ timeoutMs
         ∧ nonStreamingAborted timeoutMs eventTimes endTime = false
         ∧ streamingAborted timeoutMs inactivityMs eventTimes endTime = true) := by
  constructor
  · intro t ts e h
    simp only [nonStreamingAborted, totalTimerFired, decide_eq_false_iff_not]
    omega
  · exact ⟨3600000, 900000, 1000001, [1000000], by decide, by decide, by decide⟩

/-- C10 witness: a run finishing at 1000001 ms with a single event at
1000000 ms is not aborted by the non-streaming path under the default
3600000 ms total deadline. -/
theorem c10_nonstreaming_single_timer_witness :
    (1000001 ≤ 3600000) ∧ nonStreamingAborted 3600000 [1000000] 1000001 = false :=
  ⟨by decide, c10_nonstreaming_single_timer.1 3600000 [1000000] 1000001 (by decide)⟩

/-- C1 counterexample: with no engine-reported identifier, an inbound
`X-Claude-Session-ID` of "abc", and request start at 5 ms, the non-streaming
success response's header is the synthesized "session_5" while the claimed
resolution yields "abc"; moreover the error response carries no
`X-Claude-Session-ID` header at all. -/
theorem c1_counterexample :
    nonStreamingResponseSessionHeader none 5 = "session_5"
    ∧ claimedSessionHeader none (some "abc") 5 = "abc"
    ∧ ("session_5" : String) ≠ "abc"
    ∧ (handleTopLevelError "engine failure").extraHeaders.lookup
        "X-Claude-Session-ID" = none := by
  refine ⟨by decide, rfl, by decide, rfl⟩

/-- C1 amended: the streaming response resolves its `X-Claude-Session-ID`
header as engine-captured identifier, else inbound identifier, else
`session_<unix-millis>`; the non-streaming success response resolves it as
engine-captured identifier else `session_<unix-millis>` (the inbound
identifier is ignored); and error responses carry no session header. -/
theorem c1_session_header_resolution : ∀ (cur resume : Option String) (nowMs : Nat),
    cur ≠ some "" → resume ≠ some "" →
    streamingResponseSessionHeader cur resume nowMs = claimedSessionHeader cur resume nowMs
    ∧ nonStreamingResponseSessionHeader cur nowMs = claimedSessionHeader cur none nowMs
    ∧ (handleTopLevelError "engine failure").extraHeaders.lookup
        "X-Claude-Session-ID" = none := by
  intro cur resume now h1 h2
  have hcur : ∀ s : String, cur = some s → (s == "") = false := by
    intro s hs
    cases hb : (s == "")
    · rfl
    · exact absurd (hs.trans (by rw [show s = "" from by simpa using hb])) h1
  have hres : ∀ r : String, resume = some r → (r == "") = false := by
    intro r hr
    cases hb : (r == "")
    · rfl
    · exact absurd (hr.trans (by rw [show r = "" from by simpa using hb])) h2
  refine ⟨?_, ?_, rfl⟩
  · cases cur with
    | none =>
      cases resume with
      | none => rfl
      | some r =>
        simp [streamingResponseSessionHeader, claimedSessionHeader, jsOrString,
          hres r rfl]
    | some s =>
      simp [streamingResponseSessionHeader, claimedSessionHeader, jsOrString,
        hcur s rfl]
  · cases cur with
    | none => rfl
    | some s =>
      simp [nonStreamingResponseSessionHeader, claimedSessionHeader, jsOrString,
        hcur s rfl]

/-- C1 witness: at engine identifier "sess", inbound identifier "resume0" and
request start 7 ms, the streaming header matches the claimed resolution. -/
theorem c1_session_header_resolution_witness :
    (some "sess" : Option String) ≠ some ""
    ∧ (some "resume0" : Option String) ≠ some ""
    ∧ streamingResponseSessionHeader (some "sess") (some "resume0") 7 =
        claimedSessionHeader (some "sess") (some "resume0") 7 :=
  ⟨by decide, by decide,
   (c1_session_header_resolution (some "sess") (some "resume0") 7
     (by decide) (by decide)).1⟩

/-- C2 counterexample: a streamed request whose engine iteration fails after
the preamble while the client has already disconnected emits only
`message_start` and `content_block_start(0)` — the sequence neither ends with
the closing triad nor with an error frame, so the claim's dichotomy fails. -/
theorem c2_counterexample :
    c2ClaimHolds
      (streamRun [] (StreamOutcome.failed "Error" "engine stream failed") true) = false := by
  decide

/-- C2 amended: every streamed frame sequence is the preamble
(`message_start` then `content_block_start(0)`), then only content-block
frames, then either the closing triad `content_block_stop / message_delta
("end_turn") / message_stop`, or a single error frame, or — when the client
has disconnected before a failure — nothing (the stream closes silently). -/
theorem c2_frame_ordering : ∀ (msgs : List AgentMessage) (outcome : StreamOutcome) (disc : Bool),
    streamRun msgs outcome disc =
      Frame.messageStart :: Frame.contentBlockStart 0 ::
        (emittedContentFrames msgs ++ closingFrames outcome disc)
    ∧ (∀ f ∈ emittedContentFrames msgs, isContentFrame f = true)
    ∧ (closingFrames outcome disc =
         [Frame.contentBlockStop 0, Frame.messageDelta "end_turn", Frame.messageStop]
       ∨ (∃ t m, closingFrames outcome disc = [Frame.errorFrame t m])
       ∨ (disc = true ∧ closingFrames outcome disc = [])) := by
  intro msgs outcome disc
  refine ⟨rfl, fun f h => loopFrames_content msgs false f h, ?_⟩
  cases outcome with
  | finished => exact Or.inl rfl
  | failed n m =>
    cases disc with
    | false => exact Or.inr (Or.inl ⟨_, _, rfl⟩)
    | true => exact Or.inr (Or.inr ⟨rfl, rfl⟩)

/-- C2 witness: a forwarded `content_block_stop(5)` in the middle section is
indeed a content-block frame. -/
theorem c2_frame_ordering_witness :
    Frame.contentBlockStop 5 ∈ emittedContentFrames
        [AgentMessage.streamEvent (NestedEvent.contentBlockStop 5)]
    ∧ isContentFrame (Frame.contentBlockStop 5) = true :=
  ⟨by decide,
   (c2_frame_ordering [AgentMessage.streamEvent (NestedEvent.contentBlockStop 5)]
       StreamOutcome.finished false).2.1 (Frame.contentBlockStop 5) (by decide)⟩

/-- C4: once a `stream_event` has been observed, a later full `assistant`
event contributes no frames at all (deleting it from the consumed sequence
leaves the emitted frames unchanged); and while no `stream_event` has been
observed, an `assistant` event appends exactly the synthesized fallback
triads for its text blocks. -/
theorem c4_fallback_exclusivity :
    (∀ (pre mid post : List AgentMessage) (e : NestedEvent) (sid : Option String)
        (c : List Block),
       emittedContentFrames
           (pre ++ AgentMessage.streamEvent e ::
             (mid ++ AgentMessage.assistant sid c :: post))
         = emittedContentFrames (pre ++ AgentMessage.streamEvent e :: (mid ++ post)))
    ∧ (∀ (pre : List AgentMessage) (sid : Option String) (c : List Block),
        pre.any isStreamEvent = false →
        emittedContentFrames (pre ++ [AgentMessage.assistant sid c])
          = emittedContentFrames pre ++ assistantFallbackFrames c) := by
  constructor
  · intro pre mid post e sid c
    unfold emittedContentFrames
    rw [loopFrames_append, loopFrames_append]
    simp only [loopFrames, messageFrames, isStreamEvent, Bool.or_true]
    rw [loopFrames_append, loopFrames_append]
    simp [loopFrames, messageFrames, isStreamEvent]
  · intro pre sid c h
    unfold emittedContentFrames
    rw [loopFrames_append]
    simp [h, loopFrames, messageFrames]

/-- C4 witness: with no prior `stream_event` (empty prefix), an assistant
turn with one text block emits its fallback triad. -/
theorem c4_fallback_exclusivity_witness :
    ([] : List AgentMessage).any isStreamEvent = false
    ∧ emittedContentFrames
          ([] ++ [AgentMessage.assistant (some "sess") [⟨"text", some "hi"⟩]])
        = emittedContentFrames [] ++ assistantFallbackFrames [⟨"text", some "hi"⟩] :=
  ⟨rfl, c4_fallback_exclusivity.2 [] (some "sess") [⟨"text", some "hi"⟩] rfl⟩

/-- C7: the `cancel()` handler run on client disconnect clears both lifecycle
timers and leaves the engine abort signal untouched, and a streamed request
whose client has disconnected never has an `error` frame in its output,
whether consumption ended naturally or by a failure. -/
theorem c7_disconnect_safety : ∀ (s : CleanupState) (msgs : List AgentMessage)
    (outcome : StreamOutcome),
    (cancelHandler s).timeoutCleared = true
    ∧ (cancelHandler s).inactivityCleared = true
    ∧ (cancelHandler s).engineAborted = s.engineAborted
    ∧ (streamRun msgs outcome true).any isErrorFrame = false := by
  intro s msgs outcome
  refine ⟨rfl, rfl, rfl, ?_⟩
  have h1 : (emittedContentFrames msgs).any isErrorFrame = false := by
    rw [List.any_eq_false]
    intro f hf
    have hc := loopFrames_content msgs false f hf
    cases f <;> simp [isErrorFrame] <;> simp [isContentFrame] at hc
  have h2 : (closingFrames outcome true).any isErrorFrame = false := by
    cases outcome with
    | finished => rfl
    | failed n m => rfl
  simp [streamRun, List.any_cons, List.any_append, isErrorFrame, h1, h2]

theorem streamSession_foldl_truthy : ∀ (msgs : List AgentMessage) (cur : Option String),
    jsTruthy cur = true → msgs.foldl streamSessionStep cur = cur := by
  intro msgs
  induction msgs with
  | nil => intro cur h; rfl
  | cons m rest ih =>
    intro cur h
    have hstep : streamSessionStep cur m = cur := by
      cases m <;> simp [streamSessionStep, h]
    rw [List.foldl_cons, hstep]
    exact ih cur h

theorem streamCapturedSession_eq_first : ∀ msgs : List AgentMessage,
    streamCapturedSession msgs = firstTruthySessionId msgs := by
  intro msgs
  induction msgs with
  | nil => rfl
  | cons m rest ih =>
    cases m with
    | assistant sid c =>
      cases hsid : jsTruthy sid with
      | false =>
        have hstep : streamSessionStep none (AgentMessage.assistant sid c) = none := by
          simp [streamSessionStep, hsid]
        unfold streamCapturedSession at ih ⊢
        rw [List.foldl_cons, hstep, ih]
        simp [firstTruthySessionId, hsid]
      | true =>
        have hnone : jsTruthy none = false := rfl
        have hstep : streamSessionStep none (AgentMessage.assistant sid c) = sid := by
          simp [streamSessionStep, hsid, hnone]
        unfold streamCapturedSession
        rw [List.foldl_cons, hstep, streamSession_foldl_truthy rest sid hsid]
        simp [firstTruthySessionId, hsid]
    | userMsg b =>
      unfold streamCapturedSession at ih ⊢
      rw [List.foldl_cons]
      exact ih.trans rfl
    | resultMsg =>
      unfold streamCapturedSession at ih ⊢
      rw [List.foldl_cons]
      exact ih.trans rfl
    | streamEvent e =>
      unfold streamCapturedSession at ih ⊢
      rw [List.foldl_cons]
      exact ih.trans rfl
    | otherMsg =>
      unfold streamCapturedSession at ih ⊢
      rw [List.foldl_cons]
      exact ih.trans rfl

theorem nonStreaming_session_foldl : ∀ (msgs : List AgentMessage)
    (acc : Option String × String),
    (msgs.foldl nonStreamingStep acc).1 =
      (match lastTruthySessionId msgs with
       | some s => some s
       | none => acc.1) := by
  intro msgs
  induction msgs with
  | nil => intro acc; rfl
  | cons m rest ih =>
    intro acc
    rw [List.foldl_cons, ih]
    cases m with
    | assistant sid c =>
      cases hl : lastTruthySessionId rest with
      | some s => simp [lastTruthySessionId, hl]
      | none =>
        cases sid with
        | none => simp [lastTruthySessionId, hl, nonStreamingStep, jsTruthy]
        | some s' =>
          cases hs : (s' == "") with
          | true => simp [lastTruthySessionId, hl, nonStreamingStep, jsTruthy, hs]
          | false => simp [lastTruthySessionId, hl, nonStreamingStep, jsTruthy, hs]
    | userMsg b => simp [lastTruthySessionId, nonStreamingStep]
    | resultMsg => simp [lastTruthySessionId, nonStreamingStep]
    | streamEvent e => simp [lastTruthySessionId, nonStreamingStep]
    | otherMsg => simp [lastTruthySessionId, nonStreamingStep]

/-- C8 counterexample: on the non-streaming path, a run whose assistant
events report session identifiers "a" then "b" ends with "b" captured — the
second report overwrites the first, contradicting the claim's
first-report-wins rule for non-streaming requests. -/
theorem c8_counterexample :
    (nonStreamingFold c8Demo).1 = some "b"
    ∧ firstTruthySessionId c8Demo = some "a"
    ∧ (some "b" : Option String) ≠ some "a" := by
  decide

/-- C8 amended: the streaming loop captures the first truthy session
identifier an assistant event reports and never overwrites it, while the
non-streaming loop overwrites on every report, ending with the last truthy
identifier. -/
theorem c8_session_capture : ∀ msgs : List AgentMessage,
    streamCapturedSession msgs = firstTruthySessionId msgs
    ∧ (nonStreamingFold msgs).1 = lastTruthySessionId msgs := by
  intro msgs
  refine ⟨streamCapturedSession_eq_first msgs, ?_⟩
  have h := nonStreaming_session_foldl msgs (none, "")
  unfold nonStreamingFold
  rw [h]
  cases lastTruthySessionId msgs <;> rfl
